import Mathlib

/-!
Verification development for the MapD server bootstrap and warm-up
orchestration layer (src/MapDServer.cpp).

The C++ source is shallowly embedded as executable Lean definitions:

* the warm-up replay routine `run_warmup_queries` (lines 157-215 of the
  source) becomes a recursive interpreter `replay` over the list of script
  lines, with the scope guard `releaseWarmupSession` (lines 150-155) and the
  outermost catch modelled explicitly;
* the query-engine handler (class MapDHandler, declared outside this
  translation unit) is modelled by `HandlerModel`, a fault model saying for
  each connect and each statement execution whether it succeeds or throws;
* the cluster partition helpers `only_db_leaves` / `only_string_leaves`
  (lines 106-120) and the cluster branch of `main` (lines 365-376) become
  `resolve_cluster`;
* `start_server` (lines 139-145) and the sequential skeleton of `main`
  (lines 217-569) become `start_server` and `mainRun`, a function from an
  abstract world (option values and outcomes of the external calls) to the
  ordered list of startup actions and the exit status.

Fault model for the warm-up replay: `connect` and `sql_execute` may throw
(as chosen by the `HandlerModel`); `disconnect`, the stream operations and
the log statements do not throw.  Exceptions are represented by the `esc`
flag of the interpreter result: `esc = true` means an exception escaped the
replay loop and is unwinding towards the outermost catch.
-/

/-- Whitespace characters skipped by `istream` formatted extraction
(`iss >> token`) in the default "C" locale. -/
def isSpaceChar (c : Char) : Bool :=
  c == ' ' || c == '\t' || c == '\n' || c == '\r' || c == '\x0b' || c == '\x0c'

/-- Helper for `tokenize`: walks the character list, `acc` holds the
(reversed) characters of the token currently being read. -/
def tokenizeAux (acc : List Char) : List Char → List String
  | [] => if acc.isEmpty then [] else [String.mk acc.reverse]
  | c :: cs =>
    if isSpaceChar c then
      if acc.isEmpty then tokenizeAux [] cs
      else String.mk acc.reverse :: tokenizeAux [] cs
    else tokenizeAux (c :: acc) cs

/-- The sequence of whitespace-separated tokens of a line, as produced by
repeated `iss >> token` extraction from `std::istringstream iss(line)`. -/
def tokenize (s : String) : List String := tokenizeAux [] s.data

/-- Boolean prefix test on character lists (first argument is the pattern). -/
def leadsWith : List Char → List Char → Bool
  | [], _ => true
  | _ :: _, [] => false
  | a :: as, b :: bs => a == b && leadsWith as bs

/-- The header keyword test of line 180,
`user_keyword.compare(0, 4, "USER") == 0`: `std::string::compare(0, 4, s)`
compares `user_keyword.substr(0, 4)` (clamped to the string's length) with
`"USER"`, so the test holds iff `user_keyword` starts with the four
characters `USER`. -/
def hasUSERKeyword (kw : String) : Bool := leadsWith "USER".data kw.data

/-- `extract3 uk un dn line` models
`std::istringstream iss(line); iss >> user_keyword >> user_name >> db_name;`
where the three variables currently hold `uk`, `un`, `dn` (they are declared
outside the loop at line 166 and reused across iterations).  A successful
extraction overwrites the variable with the next token; once extraction
fails (no token left, failbit set) the remaining variables keep their old
values, because `operator>>(istream, string)` only erases the target after
its sentry succeeds. -/
def extract3 (uk un dn : String) (line : String) : String × String × String :=
  match tokenize line with
  | [] => (uk, un, dn)
  | [a] => (a, un, dn)
  | [a, b] => (a, b, dn)
  | a :: b :: c :: _ => (a, b, c)

/-- The invalid-session sentinel returned by
`warmup_handler->getInvalidSessionId()`.  Session ids are modelled as `Nat`
with `0` as the sentinel. -/
def invalidSessionId : Nat := 0

/-- Modelled from the spec: the Query Engine collaborator interface of §6
(`MapDHandler`, declared in ThriftHandler/MapDHandler.h which is outside
src/).  `connect u d = some sid` means `connect(sessionId, u, "", d)`
returns normally and stores `sid`; `none` means the call throws.
`sql_execute_throws sid q = true` means `sql_execute(ret, sid, q, true, "", -1)`
throws.  `disconnect` and `getInvalidSessionId` are assumed total. -/
structure HandlerModel where
  connect : String → String → Option Nat
  sql_execute_throws : Nat → String → Bool

/-- Observable actions of the warm-up replay, in execution order. -/
inductive Event where
  | connect (user db : String)
  | disconnect (sessionId : Nat)
  | exec (sessionId : Nat) (query : String)
  | execFail (sessionId : Nat) (query : String)
  | warnBadHeader (line : String)
  | fileClose
  | warnTop
deriving DecidableEq, Repr

def Event.isConnect : Event → Bool
  | .connect _ _ => true
  | _ => false

def Event.isDisconnect : Event → Bool
  | .disconnect _ => true
  | _ => false

def Event.isFileClose : Event → Bool
  | .fileClose => true
  | _ => false

def Event.isWarnTop : Event → Bool
  | .warnTop => true
  | _ => false

/-- Events emitted by the replay loop body (as opposed to the scope guard
and the outermost catch). -/
def Event.isBody : Event → Bool
  | .fileClose => false
  | .warnTop => false
  | _ => true

/-- Events that determine which sessions are opened and which statements
are executed (everything except the malformed-header warning, whose payload
is only log text). -/
def Event.isSessionEvent : Event → Bool
  | .warnBadHeader _ => false
  | _ => true

/-- Mutable local state of `run_warmup_queries`: the three parse variables
of line 166, the session id of line 170, and the handler's
`super_user_rights_` flag toggled at lines 182-184. -/
structure RState where
  user_keyword : String
  user_name : String
  db_name : String
  sessionId : Nat
  super_user_rights : Bool
deriving DecidableEq, Repr

/-- `iss >> user_keyword >> user_name >> db_name` applied to state `st`. -/
def parseHeaderInto (st : RState) (l : String) : RState :=
  let t3 := extract3 st.user_keyword st.user_name st.db_name l
  { st with user_keyword := t3.1, user_name := t3.2.1, db_name := t3.2.2 }

/-- Control position inside the replay routine: `header` is the outer
`while (std::getline(query_file, db_info))` loop (line 174), `inBlock sid`
is the inner statement loop (line 189) with session `sid` open. -/
inductive Mode where
  | header
  | inBlock (sid : Nat)
deriving DecidableEq, Repr

/-- Result of running the replay loop body on the remaining lines:
the events it emitted, the final local/handler state, and whether an
exception escaped the loop (`esc = true`). -/
structure ROut where
  evs : List Event
  fin : RState
  esc : Bool
deriving DecidableEq, Repr

/-- The replay loops of `run_warmup_queries`, lines 174-210.  One source
line is consumed per step.  In `header` mode: blank lines are skipped
(line 175); the line is tokenized into the three parse variables
(lines 178-179); if the keyword starts with `USER` (line 180) the handler is
elevated, connected (an exception here escapes with the elevation flag still
set, since line 184 is skipped by unwinding) and the inner loop starts;
otherwise a warning is logged (line 205) and scanning resumes.  In
`inBlock sid` mode: blank lines are skipped (line 190); a `"}"` line ends
the block, which is disconnected (lines 193-196, 202-203); any other line
is executed, and a throwing execution escapes (line 197); end of file in
either mode ends the loops, an open block being disconnected first
(line 202 runs after the inner `getline` fails, then the outer one fails). -/
def replay (env : HandlerModel) : List String → Mode → RState → ROut
  | [], .header, st => ⟨[], st, false⟩
  | [], .inBlock sid, st =>
    ⟨[Event.disconnect sid], { st with sessionId := invalidSessionId }, false⟩
  | l :: rest, .header, st =>
    if l = "" then replay env rest .header st
    else
      let st1 := parseHeaderInto st l
      if hasUSERKeyword st1.user_keyword then
        let st2 := { st1 with super_user_rights := true }
        match env.connect st1.user_name st1.db_name with
        | none => ⟨[], st2, true⟩
        | some sid =>
          let st3 := { st2 with super_user_rights := false, sessionId := sid }
          let r := replay env rest (.inBlock sid) st3
          ⟨Event.connect st1.user_name st1.db_name :: r.evs, r.fin, r.esc⟩
      else
        let r := replay env rest .header st1
        ⟨Event.warnBadHeader l :: r.evs, r.fin, r.esc⟩
  | q :: rest, .inBlock sid, st =>
    if q = "" then replay env rest (.inBlock sid) st
    else if q = "\x7d" then
      let r := replay env rest .header { st with sessionId := invalidSessionId }
      ⟨Event.disconnect sid :: r.evs, r.fin, r.esc⟩
    else if env.sql_execute_throws sid q then ⟨[Event.execFail sid q], st, true⟩
    else
      let r := replay env rest (.inBlock sid) st
      ⟨Event.exec sid q :: r.evs, r.fin, r.esc⟩

/-- Modelled from the spec: `ScopeGuard` comes from Shared/scope.h, outside
src/; per §4.4 it is "a scoped cleanup action ... so that on any exit path
... the currently-open session (if one is active and not already the
'invalid session' sentinel) is disconnected, and the script file is closed".
The guarded lambda (line 172) calls `releaseWarmupSession` (lines 150-155):
close the file, then disconnect unless the session id is the sentinel. -/
def releaseWarmupSession (sessionId : Nat) : List Event :=
  Event.fileClose :: (if sessionId ≠ invalidSessionId then [Event.disconnect sessionId] else [])

/-- Initial state: the parse variables are default-constructed empty
strings (line 166), the session id starts as the sentinel (line 170), and
the handler is not elevated before warm-up. -/
def initRState : RState := ⟨"", "", "", invalidSessionId, false⟩

/-- Result of the whole warm-up routine: the ordered event trace and the
handler's `super_user_rights_` flag after the routine returns. -/
structure ReplayOut where
  trace : List Event
  super_user_rights : Bool
deriving DecidableEq, Repr

/-- `run_warmup_queries` (lines 157-215): empty path returns immediately
(lines 159-161); otherwise the loops run inside `try`, the scope guard
fires on every exit path (stack unwinding runs it before the `catch`), and
an escaping exception is swallowed after logging the top-level warning
(lines 211-214). -/
def run_warmup_queries (env : HandlerModel) (query_file_path : String)
    (lines : List String) : ReplayOut :=
  if query_file_path = "" then ⟨[], false⟩
  else
    let r := replay env lines .header initRState
    ⟨r.evs ++ releaseWarmupSession r.fin.sessionId
        ++ (if r.esc then [Event.warnTop] else []),
     r.fin.super_user_rights⟩

/-- Modelled from the spec: node roles of cluster member descriptors
(§3 LeafDescriptor; the enum `NodeRole` is declared outside src/, and src/
references `NodeRole::DbLeaf` and `NodeRole::String`). -/
inductive NodeRole where
  | Aggregator
  | DbLeaf
  | String
deriving DecidableEq, Repr

/-- Modelled from the spec: a cluster member descriptor
(§3 LeafDescriptor { host, port, role }; class `LeafHostInfo` is declared
outside src/, src/ only reads `getRole()`). -/
structure LeafHostInfo where
  host : String
  port : Nat
  role : NodeRole
deriving DecidableEq, Repr

/-- `only_db_leaves` (lines 106-112): keep the descriptors whose role is
`NodeRole::DbLeaf`, in order. -/
def only_db_leaves (all_leaves : List LeafHostInfo) : List LeafHostInfo :=
  all_leaves.filter (fun leaf => decide (leaf.role = NodeRole.DbLeaf))

/-- `only_string_leaves` (lines 114-120): keep the descriptors whose role
is `NodeRole::String`, in order. -/
def only_string_leaves (all_leaves : List LeafHostInfo) : List LeafHostInfo :=
  all_leaves.filter (fun leaf => decide (leaf.role = NodeRole.String))

/-- The cluster branch of `main`, lines 365-376: if either the `cluster` or
the `string-servers` option is present, `CHECK_NE` aborts fatally when both
are present (`none`); otherwise the parsed node list is partitioned:
`db_leaves` only when `cluster` is present, `string_leaves` unconditionally,
and `g_cluster` is set.  With neither option the vectors stay empty and
`g_cluster` stays false.  Result: `some (db_leaves, string_leaves, g_cluster)`. -/
def resolve_cluster (wantCluster wantStringServers : Bool)
    (all_nodes : List LeafHostInfo) :
    Option (List LeafHostInfo × List LeafHostInfo × Bool) :=
  if wantCluster || wantStringServers then
    if wantCluster == wantStringServers then none
    else
      some (if wantCluster then only_db_leaves all_nodes else [],
            only_string_leaves all_nodes, true)
  else some ([], [], false)

/-- `start_server` (lines 139-145): run the endpoint's serve loop; a thrown
exception is caught inside this function and logged, and the function
returns normally either way.  The argument is the outcome of
`server.serve()` (an `Except.error` is a thrown transport-level exception);
the result is the list of log lines this loop emitted. -/
def start_server (serveOutcome : Except String Unit) : List String :=
  match serveOutcome with
  | .ok _ => []
  | .error e => ["Exception: " ++ e]

/-- Startup actions of `main`, in program order. -/
inductive MainEv where
  | usageError
  | resolveCluster (db_leaves string_leaves : List LeafHostInfo)
  | fatalCheck
  | showHelp
  | showVersion
  | missingFile (which : String)
  | openLockFile (path : String)
  | openLockFail
  | lockContention (dir : String)
  | lockAcquired
  | truncateFail
  | truncateLock
  | writePidFail
  | writePid (content : String)
  | startLogging
  | registerSignalHandler
  | constructHandler (db_leaves string_leaves : List LeafHostInfo)
  | spawnBuf
  | spawnHttp
  | wEv (e : Event)
  | loopExitBuf (logs : List String)
  | joinBuf
  | loopExitHttp (logs : List String)
  | joinHttp
  | haFatal
deriving DecidableEq, Repr

/-- Fixed name of the instance lock file (line 447). -/
def lockFileName : String := "mapd_server_pid.lck"

/-- Abstract world `main` runs against: parsed option values and the
outcomes of the external calls (filesystem checks, `open`/`lockf`/
`ftruncate`/`write` on the pid file, the two serve loops, the warm-up
handler).  Boolean `...Ok`/`...Exists`/`lockFree` fields give the outcome
of the corresponding call; `lockFree = false` means `lockf(pid_fd, F_TLOCK, 0)`
fails because another process holds the lock. -/
structure World where
  optionsOk : Bool
  wantCluster : Bool
  wantStringServers : Bool
  clusterNodes : List LeafHostInfo
  helpReq : Bool
  helpAdvReq : Bool
  versionReq : Bool
  basePath : String
  queryFile : String
  queryFileExists : Bool
  convertDir : String
  convertDirExists : Bool
  basePathExists : Bool
  systemDbExists : Bool
  dataPathExists : Bool
  dbFileExists : Bool
  pid : Nat
  pidOpenOk : Bool
  lockFree : Bool
  truncOk : Bool
  writeOk : Bool
  haGroupId : String
  haUniqueId : String
  haBrokers : String
  haSharedData : String
  warmupHandler : HandlerModel
  warmupLines : List String
  bufOutcome : Except String Unit
  httpOutcome : Except String Unit

/-- Continuation of `main` after the pid was written and logging started
(lines 478-569): HA misconfiguration exits 5/6/7 (lines 489-508); signal
handler registration (line 516) and handler construction (line 518); with
an HA group id the branch at line 566 is a fatal log; otherwise both serve
threads are spawned (lines 558-559), the warm-up runs (line 562), and main
joins both threads (lines 564-565) and returns 0.  The two loop-exit events
record the logs of each endpoint's `start_server` call and are placed
before the corresponding join, since `join` returns only after that
thread's `start_server` has returned. -/
def mainAfterLogging (w : World) (dbl strl : List LeafHostInfo) :
    List MainEv × Option Nat :=
  if w.haGroupId != "" && w.haUniqueId == "" then ([], some 5)
  else if w.haGroupId != "" && w.haBrokers == "" then ([], some 6)
  else if w.haGroupId != "" && w.haSharedData == "" then ([], some 7)
  else
    if w.haGroupId != "" then
      ([MainEv.registerSignalHandler, MainEv.constructHandler dbl strl, MainEv.haFatal], none)
    else
      ([MainEv.registerSignalHandler, MainEv.constructHandler dbl strl,
        MainEv.spawnBuf, MainEv.spawnHttp]
        ++ ((run_warmup_queries w.warmupHandler w.queryFile w.warmupLines).trace.map MainEv.wEv)
        ++ [MainEv.loopExitBuf (start_server w.bufOutcome), MainEv.joinBuf,
            MainEv.loopExitHttp (start_server w.httpOutcome), MainEv.joinHttp],
       some 0)

/-- The instance-lock phase of `main` (lines 447-476) and everything after
it: open (creating if absent) `<base_path>/mapd_server_pid.lck`, take a
non-blocking exclusive lock (`lockf F_TLOCK`), truncate, and write the pid
in decimal; each failure prints a message and exits 1, lock contention
printing a message that names the data directory (lines 454-459). -/
def mainAfterChecks (w : World) (dbl strl : List LeafHostInfo) :
    List MainEv × Option Nat :=
  let p := w.basePath ++ "/" ++ lockFileName
  if !w.pidOpenOk then ([MainEv.openLockFile p, MainEv.openLockFail], some 1)
  else if !w.lockFree then
    ([MainEv.openLockFile p, MainEv.lockContention w.basePath], some 1)
  else if !w.truncOk then
    ([MainEv.openLockFile p, MainEv.lockAcquired, MainEv.truncateFail], some 1)
  else if !w.writeOk then
    ([MainEv.openLockFile p, MainEv.lockAcquired, MainEv.truncateLock,
      MainEv.writePidFail], some 1)
  else
    let r := mainAfterLogging w dbl strl
    (MainEv.openLockFile p :: MainEv.lockAcquired :: MainEv.truncateLock ::
       MainEv.writePid (Nat.repr w.pid) :: MainEv.startLogging :: r.1, r.2)

/-- The sequential skeleton of `main` (lines 217-569): option parsing
(usage errors exit 1, line 411-414); the cluster branch (lines 365-376)
runs inside option processing; help/version print and exit 0
(lines 378-397); the file/directory precondition checks (lines 416-445)
each exit 1; then the lock phase and the rest.  The second component is the
exit status: `some c` is a normal exit with code `c`, `none` means the
process aborted through a fatal log (`CHECK` at line 366 or `LOG(FATAL)` at
line 567). -/
def mainRun (w : World) : List MainEv × Option Nat :=
  if !w.optionsOk then ([MainEv.usageError], some 1)
  else
    match resolve_cluster w.wantCluster w.wantStringServers w.clusterNodes with
    | none => ([MainEv.fatalCheck], none)
    | some (dbl, strl, _g_cluster) =>
      let pre : List MainEv :=
        if w.wantCluster || w.wantStringServers then [MainEv.resolveCluster dbl strl] else []
      if w.helpReq then (pre ++ [MainEv.showHelp], some 0)
      else if w.helpAdvReq then (pre ++ [MainEv.showHelp], some 0)
      else if w.versionReq then (pre ++ [MainEv.showVersion], some 0)
      else if w.queryFile != "" && !w.queryFileExists then
        (pre ++ [MainEv.missingFile "db-query-list"], some 1)
      else if w.convertDir != "" && !w.convertDirExists then
        (pre ++ [MainEv.missingFile "db-convert"], some 1)
      else if !w.basePathExists then (pre ++ [MainEv.missingFile "data directory"], some 1)
      else if !w.systemDbExists then (pre ++ [MainEv.missingFile "mapd_catalogs/mapd"], some 1)
      else if !w.dataPathExists then (pre ++ [MainEv.missingFile "mapd_data"], some 1)
      else if !w.dbFileExists then (pre ++ [MainEv.missingFile "system db"], some 1)
      else
        let r := mainAfterChecks w dbl strl
        (pre ++ r.1, r.2)

/-- `db_leaves` as computed by lines 365-376 on the successful path. -/
def dbLeavesOf (w : World) : List LeafHostInfo :=
  if w.wantCluster then only_db_leaves w.clusterNodes else []

/-- `string_leaves` as computed by lines 365-376 on the successful path. -/
def stringLeavesOf (w : World) : List LeafHostInfo :=
  if w.wantCluster || w.wantStringServers then only_string_leaves w.clusterNodes else []

/-- The cluster-resolution event list of the successful path. -/
def clusterPreOf (w : World) : List MainEv :=
  if w.wantCluster || w.wantStringServers then
    [MainEv.resolveCluster (dbLeavesOf w) (stringLeavesOf w)] else []

/-- All startup events before the serve threads are spawned, on a fully
successful start. -/
def preServeEvents (w : World) : List MainEv :=
  clusterPreOf w ++
  [MainEv.openLockFile (w.basePath ++ "/" ++ lockFileName), MainEv.lockAcquired,
   MainEv.truncateLock, MainEv.writePid (Nat.repr w.pid), MainEv.startLogging,
   MainEv.registerSignalHandler,
   MainEv.constructHandler (dbLeavesOf w) (stringLeavesOf w)]

/-- The warm-up portion of the main trace. -/
def warmEvents (w : World) : List MainEv :=
  (run_warmup_queries w.warmupHandler w.queryFile w.warmupLines).trace.map MainEv.wEv

/-- The loop-exit/join tail of the main trace. -/
def serveTail (w : World) : List MainEv :=
  [MainEv.loopExitBuf (start_server w.bufOutcome), MainEv.joinBuf,
   MainEv.loopExitHttp (start_server w.httpOutcome), MainEv.joinHttp]

/-- A world in which every gate up to and including the serve phase
succeeds (all option, precondition and lock steps pass and the HA branch is
not taken). -/
def reachesServe (w : World) : Prop :=
  w.optionsOk = true ∧ (w.wantCluster && w.wantStringServers) = false ∧
  w.helpReq = false ∧ w.helpAdvReq = false ∧ w.versionReq = false ∧
  (w.queryFile = "" ∨ w.queryFileExists = true) ∧
  (w.convertDir = "" ∨ w.convertDirExists = true) ∧
  w.basePathExists = true ∧ w.systemDbExists = true ∧ w.dataPathExists = true ∧
  w.dbFileExists = true ∧ w.pidOpenOk = true ∧ w.lockFree = true ∧
  w.truncOk = true ∧ w.writeOk = true ∧ w.haGroupId = ""

/-- A handler model whose connects all throw. -/
def hThrow : HandlerModel := ⟨fun _ _ => none, fun _ _ => false⟩

/-- A handler model where every connect yields session 1 and every
statement succeeds. -/
def hOk : HandlerModel := ⟨fun _ _ => some 1, fun _ _ => false⟩

/-- A fully successful start: cluster flag set with an empty node list,
all precondition and lock steps succeed, no warm-up script, both serve
loops end normally. -/
def wOk : World :=
  { optionsOk := true, wantCluster := true, wantStringServers := false,
    clusterNodes := [], helpReq := false, helpAdvReq := false, versionReq := false,
    basePath := "data", queryFile := "", queryFileExists := false,
    convertDir := "", convertDirExists := false,
    basePathExists := true, systemDbExists := true, dataPathExists := true,
    dbFileExists := true, pid := 42, pidOpenOk := true, lockFree := true,
    truncOk := true, writeOk := true,
    haGroupId := "", haUniqueId := "", haBrokers := "", haSharedData := "",
    warmupHandler := hOk, warmupLines := [],
    bufOutcome := Except.ok (), httpOutcome := Except.ok () }

/-- The state after a successful elevated connect: parse variables updated,
session id set, elevation toggled on (line 182) and back off (line 184). -/
def connectState (st : RState) (l : String) (sid : Nat) : RState :=
  { parseHeaderInto st l with super_user_rights := false, sessionId := sid }

/-- 1 if a session is currently open (id differs from the sentinel). -/
def sentinelCount (st : RState) : Nat :=
  if st.sessionId ≠ invalidSessionId then 1 else 0

/-- A well-formed warm-up block of the script grammar (§4.4):
`USER <user> <db>` header, statement lines, `"}"` terminator. -/
structure WarmupBlock where
  user : String
  db : String
  stmts : List String
deriving DecidableEq, Repr

def blockHeader (b : WarmupBlock) : String := "USER " ++ b.user ++ " " ++ b.db

def blockLines (b : WarmupBlock) : List String :=
  blockHeader b :: b.stmts ++ ["\x7d"]

/-- The script file consisting of the given blocks in order. -/
def scriptLines : List WarmupBlock → List String
  | [] => []
  | b :: bs => blockLines b ++ scriptLines bs

/-- Well-formedness: the header tokenizes to exactly `USER`, the user and
the database name, and no statement line is blank or the terminator. -/
def wfBlock (b : WarmupBlock) : Prop :=
  tokenize (blockHeader b) = ["USER", b.user, b.db] ∧
  ∀ s ∈ b.stmts, s ≠ "" ∧ s ≠ "\x7d"

/-- The events of one fully successful block: connect, the statements in
file order, disconnect. -/
def expectedBlockEvents (sid : Nat) (b : WarmupBlock) : List Event :=
  Event.connect b.user b.db :: b.stmts.map (Event.exec sid) ++ [Event.disconnect sid]

/-- The events of a fully successful replay of the given blocks in order
(`sid` gives the session id `connect` hands out per user/database). -/
def expectedEvents (sid : String → String → Nat) : List WarmupBlock → List Event
  | [] => []
  | b :: bs => expectedBlockEvents (sid b.user b.db) b ++ expectedEvents sid bs

theorem replay_nil_header (env : HandlerModel) (st : RState) :
    replay env [] .header st = ⟨[], st, false⟩ := rfl

theorem replay_nil_inBlock (env : HandlerModel) (sid : Nat) (st : RState) :
    replay env [] (.inBlock sid) st =
      ⟨[Event.disconnect sid], { st with sessionId := invalidSessionId }, false⟩ := rfl

theorem replay_header_blank (env : HandlerModel) (rest : List String) (st : RState) :
    replay env ("" :: rest) .header st = replay env rest .header st := by
  simp [replay]

theorem replay_header_warn (env : HandlerModel) (l : String) (rest : List String)
    (st : RState) (hl : l ≠ "")
    (hk : hasUSERKeyword (parseHeaderInto st l).user_keyword = false) :
    replay env (l :: rest) .header st =
      ⟨Event.warnBadHeader l :: (replay env rest .header (parseHeaderInto st l)).evs,
       (replay env rest .header (parseHeaderInto st l)).fin,
       (replay env rest .header (parseHeaderInto st l)).esc⟩ := by
  simp [replay, hl, hk]

theorem replay_header_connect_fail (env : HandlerModel) (l : String)
    (rest : List String) (st : RState) (hl : l ≠ "")
    (hk : hasUSERKeyword (parseHeaderInto st l).user_keyword = true)
    (hc : env.connect (parseHeaderInto st l).user_name (parseHeaderInto st l).db_name = none) :
    replay env (l :: rest) .header st =
      ⟨[], { parseHeaderInto st l with super_user_rights := true }, true⟩ := by
  simp [replay, hl, hk, hc]

theorem replay_header_connect_ok (env : HandlerModel) (l : String)
    (rest : List String) (st : RState) (sid : Nat) (hl : l ≠ "")
    (hk : hasUSERKeyword (parseHeaderInto st l).user_keyword = true)
    (hc : env.connect (parseHeaderInto st l).user_name (parseHeaderInto st l).db_name
            = some sid) :
    replay env (l :: rest) .header st =
      ⟨Event.connect (parseHeaderInto st l).user_name (parseHeaderInto st l).db_name ::
         (replay env rest (.inBlock sid) (connectState st l sid)).evs,
       (replay env rest (.inBlock sid) (connectState st l sid)).fin,
       (replay env rest (.inBlock sid) (connectState st l sid)).esc⟩ := by
  simp [replay, hl, hk, hc, connectState]

theorem replay_block_blank (env : HandlerModel) (sid : Nat) (rest : List String)
    (st : RState) :
    replay env ("" :: rest) (.inBlock sid) st = replay env rest (.inBlock sid) st := by
  simp [replay]

theorem replay_block_close (env : HandlerModel) (sid : Nat) (rest : List String)
    (st : RState) :
    replay env ("\x7d" :: rest) (.inBlock sid) st =
      ⟨Event.disconnect sid ::
         (replay env rest .header { st with sessionId := invalidSessionId }).evs,
       (replay env rest .header { st with sessionId := invalidSessionId }).fin,
       (replay env rest .header { st with sessionId := invalidSessionId }).esc⟩ := by
  simp [replay]

theorem replay_block_throw (env : HandlerModel) (sid : Nat) (q : String)
    (rest : List String) (st : RState) (hq : q ≠ "") (hq2 : q ≠ "\x7d")
    (hx : env.sql_execute_throws sid q = true) :
    replay env (q :: rest) (.inBlock sid) st = ⟨[Event.execFail sid q], st, true⟩ := by
  simp [replay, hq, hq2, hx]

theorem replay_block_exec (env : HandlerModel) (sid : Nat) (q : String)
    (rest : List String) (st : RState) (hq : q ≠ "") (hq2 : q ≠ "\x7d")
    (hx : env.sql_execute_throws sid q = false) :
    replay env (q :: rest) (.inBlock sid) st =
      ⟨Event.exec sid q :: (replay env rest (.inBlock sid) st).evs,
       (replay env rest (.inBlock sid) st).fin,
       (replay env rest (.inBlock sid) st).esc⟩ := by
  simp [replay, hq, hq2, hx]

/-- The loop body emits only body events: the file-close and the top-level
warning can only come from the scope guard and the outermost catch. -/
theorem replay_evs_body (env : HandlerModel) :
    ∀ (lines : List String) (mode : Mode) (st : RState),
      ∀ e ∈ (replay env lines mode st).evs, Event.isBody e = true := by
  intro lines
  induction lines with
  | nil =>
    intro mode st e he
    cases mode with
    | header => rw [replay_nil_header] at he; simp at he
    | inBlock sid =>
      rw [replay_nil_inBlock] at he
      simp at he
      subst he
      rfl
  | cons l rest ih =>
    intro mode st e he
    cases mode with
    | header =>
      by_cases hl : l = ""
      · subst hl
        rw [replay_header_blank] at he
        exact ih .header st e he
      · by_cases hk : hasUSERKeyword (parseHeaderInto st l).user_keyword
        · cases hcr : env.connect (parseHeaderInto st l).user_name
              (parseHeaderInto st l).db_name with
          | none =>
            rw [replay_header_connect_fail env l rest st hl hk hcr] at he
            simp at he
          | some sid =>
            rw [replay_header_connect_ok env l rest st sid hl hk hcr] at he
            simp only [List.mem_cons] at he
            rcases he with rfl | he
            · rfl
            · exact ih _ _ e he
        · rw [replay_header_warn env l rest st hl (by simpa using hk)] at he
          simp only [List.mem_cons] at he
          rcases he with rfl | he
          · rfl
          · exact ih _ _ e he
    | inBlock sid =>
      by_cases hq : l = ""
      · subst hq
        rw [replay_block_blank] at he
        exact ih _ _ e he
      · by_cases hq2 : l = "\x7d"
        · subst hq2
          rw [replay_block_close] at he
          simp only [List.mem_cons] at he
          rcases he with rfl | he
          · rfl
          · exact ih _ _ e he
        · cases hx : env.sql_execute_throws sid l with
          | true =>
            rw [replay_block_throw env sid l rest st hq hq2 hx] at he
            simp at he
            subst he
            rfl
          | false =>
            rw [replay_block_exec env sid l rest st hq hq2 hx] at he
            simp only [List.mem_cons] at he
            rcases he with rfl | he
            · rfl
            · exact ih _ _ e he

/-- Connect/disconnect balance of the loop body: the disconnect events plus
the session left open at the end account exactly for the connect events
plus the session open at entry (assuming `connect` never hands out the
sentinel id). -/
theorem replay_balance (env : HandlerModel)
    (hc : ∀ u d s, env.connect u d = some s → s ≠ invalidSessionId) :
    ∀ (lines : List String) (mode : Mode) (st : RState),
      (mode = Mode.header → st.sessionId = invalidSessionId) →
      (∀ sid, mode = Mode.inBlock sid → st.sessionId = sid ∧ sid ≠ invalidSessionId) →
      (replay env lines mode st).evs.countP Event.isDisconnect
          + sentinelCount (replay env lines mode st).fin
        = (replay env lines mode st).evs.countP Event.isConnect + sentinelCount st := by
  intro lines
  induction lines with
  | nil =>
    intro mode st hH hB
    cases mode with
    | header =>
      rw [replay_nil_header]
      simp [sentinelCount, hH rfl]
    | inBlock sid =>
      obtain ⟨h1, h2⟩ := hB sid rfl
      rw [replay_nil_inBlock]
      simp [sentinelCount, Event.isDisconnect, Event.isConnect, List.countP_cons, h1, h2]
  | cons l rest ih =>
    intro mode st hH hB
    cases mode with
    | header =>
      have hst : st.sessionId = invalidSessionId := hH rfl
      have hsent : sentinelCount st = 0 := by simp [sentinelCount, hst]
      have hps : (parseHeaderInto st l).sessionId = st.sessionId := rfl
      by_cases hl : l = ""
      · subst hl
        rw [replay_header_blank]
        exact ih .header st hH hB
      · by_cases hk : hasUSERKeyword (parseHeaderInto st l).user_keyword
        · cases hcr : env.connect (parseHeaderInto st l).user_name
              (parseHeaderInto st l).db_name with
          | none =>
            rw [replay_header_connect_fail env l rest st hl hk hcr]
            have hf : sentinelCount
                { parseHeaderInto st l with super_user_rights := true } = 0 := by
              simp [sentinelCount, parseHeaderInto, hst]
            simp [hf, hsent]
          | some sid =>
            have hsid : sid ≠ invalidSessionId := hc _ _ _ hcr
            rw [replay_header_connect_ok env l rest st sid hl hk hcr]
            have hIH := ih (.inBlock sid) (connectState st l sid)
              (by intro h; cases h)
              (by intro s hs; cases hs; exact ⟨rfl, hsid⟩)
            have hcs : sentinelCount (connectState st l sid) = 1 := by
              simp [sentinelCount, connectState, parseHeaderInto, hsid]
            rw [hcs] at hIH
            simp only [List.countP_cons, Event.isDisconnect, Event.isConnect, hsent]
            simp only [Bool.false_eq_true, if_false, if_true]
            omega
        · rw [replay_header_warn env l rest st hl (by simpa using hk)]
          have hIH := ih .header (parseHeaderInto st l)
            (by intro _; rw [hps]; exact hst)
            (by intro s hs; cases hs)
          have hpz : sentinelCount (parseHeaderInto st l) = 0 := by
            simp [sentinelCount, hps, hst]
          rw [hpz] at hIH
          simp only [List.countP_cons, Event.isDisconnect, Event.isConnect, hsent]
          simp only [Bool.false_eq_true, if_false]
          omega
    | inBlock sid =>
      obtain ⟨h1, h2⟩ := hB sid rfl
      have hsent : sentinelCount st = 1 := by simp [sentinelCount, h1, h2]
      by_cases hq : l = ""
      · subst hq
        rw [replay_block_blank]
        exact ih _ _ (by intro h; cases h) hB
      · by_cases hq2 : l = "\x7d"
        · subst hq2
          rw [replay_block_close]
          have hIH := ih .header { st with sessionId := invalidSessionId }
            (by intro _; rfl)
            (by intro s hs; cases hs)
          have h0 : sentinelCount
              ({ st with sessionId := invalidSessionId } : RState) = 0 := by
            simp [sentinelCount]
          rw [h0] at hIH
          simp only [List.countP_cons, Event.isDisconnect, Event.isConnect, hsent]
          simp only [Bool.false_eq_true, if_false, if_true]
          omega
        · cases hx : env.sql_execute_throws sid l with
          | true =>
            rw [replay_block_throw env sid l rest st hq hq2 hx]
            simp [sentinelCount, List.countP_cons, Event.isDisconnect, Event.isConnect]
          | false =>
            rw [replay_block_exec env sid l rest st hq hq2 hx]
            have hIH := ih (.inBlock sid) st hH hB
            simp only [List.countP_cons, Event.isDisconnect, Event.isConnect]
            simp only [Bool.false_eq_true, if_false]
            omega

theorem body_not_fileClose :
    ∀ e : Event, Event.isBody e = true → Event.isFileClose e = false := by
  intro e h
  cases e <;> first | rfl | exact absurd h (by simp [Event.isBody])

theorem body_not_warnTop :
    ∀ e : Event, Event.isBody e = true → Event.isWarnTop e = false := by
  intro e h
  cases e <;> first | rfl | exact absurd h (by simp [Event.isBody])

/-- Event counts of the scope-guard action: one file close, no connect,
and one disconnect exactly when a non-sentinel session is open. -/
theorem release_counts (n : Nat) :
    (releaseWarmupSession n).countP Event.isFileClose = 1 ∧
    (releaseWarmupSession n).countP Event.isConnect = 0 ∧
    (releaseWarmupSession n).countP Event.isDisconnect
      = (if n ≠ invalidSessionId then 1 else 0) ∧
    (releaseWarmupSession n).countP Event.isWarnTop = 0 := by
  by_cases h : n = invalidSessionId <;>
    simp [releaseWarmupSession, h, Event.isFileClose, Event.isConnect,
      Event.isDisconnect, Event.isWarnTop]

/-- Claim C1: on every exit path from the warm-up replay routine (normal
completion, malformed-header skips, or an exception escaping parsing or
execution), the script file is closed exactly once, and sessions are
disconnected exactly once each — the number of disconnect calls equals the
number of successful connects, the scope guard supplying the disconnect for
a session left open (active and different from the invalid-session
sentinel) when the routine is exited abnormally. -/
theorem warmup_cleanup_exactly_once (env : HandlerModel) (path : String)
    (lines : List String) (hpath : path ≠ "")
    (hc : ∀ u d s, env.connect u d = some s → s ≠ invalidSessionId) :
    (run_warmup_queries env path lines).trace.countP Event.isFileClose = 1 ∧
    (run_warmup_queries env path lines).trace.countP Event.isConnect
      = (run_warmup_queries env path lines).trace.countP Event.isDisconnect := by
  have hbody := replay_evs_body env lines .header initRState
  have hbal := replay_balance env hc lines .header initRState
    (fun _ => rfl) (fun s hs => by cases hs)
  have hsinit : sentinelCount initRState = 0 := rfl
  rw [hsinit] at hbal
  obtain ⟨hr1, hr2, hr3, _⟩ :=
    release_counts (replay env lines .header initRState).fin.sessionId
  have hsent : sentinelCount (replay env lines .header initRState).fin
      = (if (replay env lines .header initRState).fin.sessionId ≠ invalidSessionId
          then 1 else 0) := rfl
  rw [hsent] at hbal
  have hgoal : (run_warmup_queries env path lines).trace
      = (replay env lines .header initRState).evs
        ++ releaseWarmupSession (replay env lines .header initRState).fin.sessionId
        ++ (if (replay env lines .header initRState).esc then [Event.warnTop] else []) := by
    simp [run_warmup_queries, hpath]
  rw [hgoal]
  have hfc0 : (replay env lines .header initRState).evs.countP Event.isFileClose = 0 := by
    rw [List.countP_eq_zero]
    intro e he
    rw [body_not_fileClose e (hbody e he)]
    simp
  have htail : ∀ p : Event → Bool, p Event.warnTop = false →
      (if (replay env lines .header initRState).esc
        then [Event.warnTop] else []).countP p = 0 := by
    intro p hp
    cases (replay env lines .header initRState).esc <;> simp [hp]
  constructor
  · rw [List.countP_append, List.countP_append, hr1, hfc0,
      htail Event.isFileClose rfl]
  · rw [List.countP_append, List.countP_append, List.countP_append,
      List.countP_append, hr2, hr3, htail Event.isConnect rfl,
      htail Event.isDisconnect rfl]
    omega

/-- Concrete instance of `warmup_cleanup_exactly_once`: a two-line script
whose single statement throws; the guard still closes the file once and
disconnects the one connected session. -/
theorem warmup_cleanup_exactly_once_witness :
    (run_warmup_queries ⟨fun _ _ => some 7, fun _ _ => true⟩ "warmup_queries.sql"
        ["USER a db", "SELECT 1;"]).trace.countP Event.isFileClose = 1 ∧
    (run_warmup_queries ⟨fun _ _ => some 7, fun _ _ => true⟩ "warmup_queries.sql"
        ["USER a db", "SELECT 1;"]).trace.countP Event.isConnect
      = (run_warmup_queries ⟨fun _ _ => some 7, fun _ _ => true⟩ "warmup_queries.sql"
        ["USER a db", "SELECT 1;"]).trace.countP Event.isDisconnect :=
  warmup_cleanup_exactly_once ⟨fun _ _ => some 7, fun _ _ => true⟩
    "warmup_queries.sql" ["USER a db", "SELECT 1;"] (by decide)
    (fun _ _ s h => by simp at h; simp [invalidSessionId]; omega)

/-- On any flag combination the fatal `CHECK_NE` does not reject
(`¬(cluster ∧ string-servers)`), the cluster branch yields the partition of
lines 365-376. -/
theorem resolve_cluster_of_not_both (wc ws : Bool) (ns : List LeafHostInfo)
    (h : (wc && ws) = false) :
    resolve_cluster wc ws ns
      = some (if wc then only_db_leaves ns else [],
              if wc || ws then only_string_leaves ns else [], wc || ws) := by
  cases wc <;> cases ws <;> simp_all [resolve_cluster]

/-- On a world where every startup gate succeeds, `main` performs the full
event sequence: cluster resolution (if flagged), lock acquisition, logging,
handler construction, both endpoint spawns, the warm-up replay, both
loop exits with their joins, and exits 0. -/
theorem mainRun_serve (w : World) (h : reachesServe w) :
    mainRun w = (preServeEvents w ++ [MainEv.spawnBuf, MainEv.spawnHttp]
      ++ warmEvents w ++ serveTail w, some 0) := by
  obtain ⟨h1, h2, h3, h4, h5, h6, h7, h8, h9, h10, h11, h12, h13, h14, h15, h16⟩ := h
  rcases h6 with h6 | h6 <;> rcases h7 with h7 | h7 <;>
    simp [mainRun, resolve_cluster_of_not_both _ _ _ h2, h1, h3, h4, h5, h6, h7,
      h8, h9, h10, h11, h12, h13, h14, h15, h16, mainAfterChecks, mainAfterLogging,
      preServeEvents, clusterPreOf, dbLeavesOf, stringLeavesOf, warmEvents, serveTail]

/-- Claim C2: every error escaping the warm-up replay (parse-level or
execution-level) is caught at the outermost boundary of the replay routine
and logged as exactly one "warm-up may not be fully completed" warning
(none is logged when nothing escapes); the routine is a total function
(it never propagates an error to `main`), and for every world reaching the
serve phase — whatever the warm-up handler and script do — `main` continues
past the warm-up to the endpoint-join phase and exits 0. -/
theorem warmup_errors_swallowed :
    (∀ (env : HandlerModel) (path : String) (lines : List String), path ≠ "" →
      (run_warmup_queries env path lines).trace.countP Event.isWarnTop
        = (if (replay env lines .header initRState).esc then 1 else 0)) ∧
    (∀ w : World, reachesServe w →
      mainRun w = (preServeEvents w ++ [MainEv.spawnBuf, MainEv.spawnHttp]
        ++ warmEvents w ++ serveTail w, some 0)) := by
  constructor
  · intro env path lines hpath
    have hbody := replay_evs_body env lines .header initRState
    obtain ⟨_, _, _, hw⟩ :=
      release_counts (replay env lines .header initRState).fin.sessionId
    have hgoal : (run_warmup_queries env path lines).trace
        = (replay env lines .header initRState).evs
          ++ releaseWarmupSession (replay env lines .header initRState).fin.sessionId
          ++ (if (replay env lines .header initRState).esc
              then [Event.warnTop] else []) := by
      simp [run_warmup_queries, hpath]
    rw [hgoal, List.countP_append, List.countP_append, hw]
    have h0 : (replay env lines .header initRState).evs.countP Event.isWarnTop = 0 := by
      rw [List.countP_eq_zero]
      intro e he
      rw [body_not_warnTop e (hbody e he)]
      simp
    cases hesc : (replay env lines .header initRState).esc <;>
      simp [h0, Event.isWarnTop]
  · exact fun w h => mainRun_serve w h

/-- Concrete instance of `warmup_errors_swallowed`: a script whose connect
throws yields exactly one top-level warning, and the successful world
`wOk` reaches the join phase and exits 0. -/
theorem warmup_errors_swallowed_witness :
    ((run_warmup_queries hThrow "warmup_queries.sql" ["USER a db"]).trace.countP
        Event.isWarnTop
      = (if (replay hThrow ["USER a db"] .header initRState).esc then 1 else 0)) ∧
    mainRun wOk = (preServeEvents wOk ++ [MainEv.spawnBuf, MainEv.spawnHttp]
      ++ warmEvents wOk ++ serveTail wOk, some 0) :=
  ⟨warmup_errors_swallowed.1 hThrow "warmup_queries.sql" ["USER a db"] (by decide),
   warmup_errors_swallowed.2 wOk
     ⟨rfl, rfl, rfl, rfl, rfl, Or.inl rfl, Or.inl rfl, rfl, rfl, rfl, rfl, rfl,
      rfl, rfl, rfl, rfl⟩⟩

theorem tokenize_nonempty {l a : String} {t : List String}
    (h : tokenize l = a :: t) : l ≠ "" := by
  intro hl
  rw [hl, show tokenize "" = [] by decide] at h
  simp at h

theorem extract3_three (uk un dn : String) {l a b c : String} {t : List String}
    (h : tokenize l = a :: b :: c :: t) : extract3 uk un dn l = (a, b, c) := by
  simp [extract3, h]

theorem parseHeaderInto_three (st : RState) {l a b c : String} {t : List String}
    (h : tokenize l = a :: b :: c :: t) :
    parseHeaderInto st l
      = { st with user_keyword := a, user_name := b, db_name := c } := by
  simp [parseHeaderInto, extract3_three st.user_keyword st.user_name st.db_name h]

/-- Inner statement loop on a block body with a well-formed terminator and
no failing execution: every statement is executed in order, then the block
is disconnected and the outer loop continues. -/
theorem replay_block_stmts (env : HandlerModel) (sid : Nat) :
    ∀ (stmts rest : List String) (st : RState),
      (∀ s ∈ stmts, s ≠ "" ∧ s ≠ "\x7d") →
      (∀ q, env.sql_execute_throws sid q = false) →
      replay env (stmts ++ "\x7d" :: rest) (.inBlock sid) st =
        ⟨stmts.map (Event.exec sid)
           ++ Event.disconnect sid ::
             (replay env rest .header { st with sessionId := invalidSessionId }).evs,
         (replay env rest .header { st with sessionId := invalidSessionId }).fin,
         (replay env rest .header { st with sessionId := invalidSessionId }).esc⟩ := by
  intro stmts
  induction stmts with
  | nil =>
    intro rest st _ _
    simp only [List.nil_append, List.map_nil]
    rw [replay_block_close]
  | cons q qs ih =>
    intro rest st hs hx
    obtain ⟨hq, hq2⟩ := hs q (by simp)
    rw [List.cons_append, replay_block_exec env sid q _ st hq hq2 (hx q),
      ih rest st (fun s hsm => hs s (by simp [hsm])) hx]
    simp

/-- Outer loop over a script of well-formed blocks with no failing connect
and no failing execution: the blocks replay in file order. -/
theorem replay_script (env : HandlerModel) (sid : String → String → Nat) :
    ∀ (bs : List WarmupBlock) (st : RState),
      st.sessionId = invalidSessionId →
      (∀ b ∈ bs, wfBlock b) →
      (∀ b ∈ bs, env.connect b.user b.db = some (sid b.user b.db)) →
      (∀ s q, env.sql_execute_throws s q = false) →
      (replay env (scriptLines bs) .header st).evs = expectedEvents sid bs ∧
      (replay env (scriptLines bs) .header st).fin.sessionId = invalidSessionId ∧
      (replay env (scriptLines bs) .header st).esc = false := by
  intro bs
  induction bs with
  | nil =>
    intro st hst _ _ _
    rw [show scriptLines [] = [] from rfl, replay_nil_header]
    exact ⟨rfl, hst, rfl⟩
  | cons b bs ih =>
    intro st hst hwf hc hx
    obtain ⟨htok, hstmts⟩ := hwf b (by simp)
    have hl : blockHeader b ≠ "" := tokenize_nonempty htok
    have hparse := parseHeaderInto_three st htok
    have hk : hasUSERKeyword (parseHeaderInto st (blockHeader b)).user_keyword = true := by
      rw [hparse]
      show hasUSERKeyword "USER" = true
      decide
    have hcon : env.connect (parseHeaderInto st (blockHeader b)).user_name
        (parseHeaderInto st (blockHeader b)).db_name = some (sid b.user b.db) := by
      rw [hparse]
      exact hc b (by simp)
    have hform : scriptLines (b :: bs)
        = blockHeader b :: (b.stmts ++ "\x7d" :: scriptLines bs) := by
      simp [scriptLines, blockLines]
    rw [hform, replay_header_connect_ok env (blockHeader b) _ st (sid b.user b.db)
      hl hk hcon, replay_block_stmts env (sid b.user b.db) b.stmts (scriptLines bs)
      (connectState st (blockHeader b) (sid b.user b.db)) hstmts (fun q => hx _ q)]
    have hih := ih { connectState st (blockHeader b) (sid b.user b.db) with
        sessionId := invalidSessionId } rfl
      (fun x hx2 => hwf x (by simp [hx2])) (fun x hx2 => hc x (by simp [hx2])) hx
    refine ⟨?_, hih.2.1, hih.2.2⟩
    rw [show (parseHeaderInto st (blockHeader b)).user_name = b.user by rw [hparse],
      show (parseHeaderInto st (blockHeader b)).db_name = b.db by rw [hparse], hih.1]
    simp [expectedEvents, expectedBlockEvents]

/-- Claim C3 (amended): for a script of N well-formed `USER`-header blocks
with well-formed terminators, when every connect and every statement
execution succeeds, replay performs exactly N connect/disconnect cycles in
file order and executes each block's statements in the order they appear;
the trace is exactly the per-block connect/exec*/disconnect sequences
followed by the guard's file close.  (A failing statement execution still
gets its block's session disconnected — by the scope guard, see C1 — but
aborts the remainder of the replay instead of proceeding to the next
block; see the counterexample.) -/
theorem warmup_block_replay (env : HandlerModel) (path : String)
    (bs : List WarmupBlock) (sid : String → String → Nat) (hpath : path ≠ "")
    (hwf : ∀ b ∈ bs, wfBlock b)
    (hc : ∀ b ∈ bs, env.connect b.user b.db = some (sid b.user b.db))
    (hx : ∀ s q, env.sql_execute_throws s q = false) :
    (run_warmup_queries env path (scriptLines bs)).trace
      = expectedEvents sid bs ++ [Event.fileClose] := by
  obtain ⟨h1, h2, h3⟩ := replay_script env sid bs initRState rfl hwf hc hx
  simp [run_warmup_queries, hpath, releaseWarmupSession, h1, h2, h3]

/-- Concrete instance of `warmup_block_replay`: one block, one statement. -/
theorem warmup_block_replay_witness :
    (run_warmup_queries hOk "warmup_queries.sql"
        (scriptLines [⟨"a", "db", ["SELECT 1;"]⟩])).trace
      = expectedEvents (fun _ _ => 1) [⟨"a", "db", ["SELECT 1;"]⟩]
          ++ [Event.fileClose] :=
  warmup_block_replay hOk "warmup_queries.sql" [⟨"a", "db", ["SELECT 1;"]⟩]
    (fun _ _ => 1) (by decide)
    (fun b hb => by
      simp at hb
      subst hb
      exact ⟨by decide, by decide⟩)
    (fun b _ => rfl) (fun _ _ => rfl)

/-- Counterexample to claim C3 as stated: `blocksCex` holds two well-formed
blocks, but when the first block's statement `BOOM` throws, the trace shows
a single connect/disconnect cycle — the second block is never reached, so
replay does not "proceed to the next block in file order" and does not
perform N = 2 cycles.  (The guard still closes the file and disconnects the
open session, and the abort is logged at the top.) -/
theorem warmup_block_replay_cex :
    wfBlock ⟨"u1", "db1", ["BOOM"]⟩ ∧ wfBlock ⟨"u2", "db2", ["SELECT 1;"]⟩ ∧
    (run_warmup_queries ⟨fun _ _ => some 1, fun _ q => q == "BOOM"⟩
        "warmup_queries.sql"
        (scriptLines [⟨"u1", "db1", ["BOOM"]⟩, ⟨"u2", "db2", ["SELECT 1;"]⟩])).trace
      = [Event.connect "u1" "db1", Event.execFail 1 "BOOM",
         Event.fileClose, Event.disconnect 1, Event.warnTop] ∧
    (run_warmup_queries ⟨fun _ _ => some 1, fun _ q => q == "BOOM"⟩
        "warmup_queries.sql"
        (scriptLines [⟨"u1", "db1", ["BOOM"]⟩, ⟨"u2", "db2", ["SELECT 1;"]⟩])).trace.countP
        Event.isConnect = 1 :=
  ⟨⟨by decide, by decide⟩, ⟨by decide, by decide⟩, by decide, by decide⟩

/-- Claim C4 (amended): every non-empty line read in header position whose
extracted keyword does not begin with the four characters `USER` is skipped
with a logged warning, and scanning resumes at the next line without
aborting the replay (the keyword is the line's first whitespace-separated
token, or the previously extracted keyword when the line has no token,
since the parse variables are reused across lines); the match is a prefix
comparison, `compare(0, 4, "USER")`, so a first token such as `USERX` is
accepted as a header rather than skipped.  The concrete script
`"BADLINE x y\nUSER a db\nSELECT 1;\n}\n"` produces exactly one warning
(for the first line), one connect for user `a` on database `db`, one
execution of `SELECT 1;`, and one disconnect. -/
theorem malformed_header_skip :
    (∀ (env : HandlerModel) (st : RState) (rest : List String) (l : String),
      l ≠ "" → hasUSERKeyword (parseHeaderInto st l).user_keyword = false →
      replay env (l :: rest) .header st =
        ⟨Event.warnBadHeader l ::
           (replay env rest .header (parseHeaderInto st l)).evs,
         (replay env rest .header (parseHeaderInto st l)).fin,
         (replay env rest .header (parseHeaderInto st l)).esc⟩) ∧
    (run_warmup_queries hOk "warmup_queries.sql"
        ["BADLINE x y", "USER a db", "SELECT 1;", "\x7d"]).trace
      = [Event.warnBadHeader "BADLINE x y", Event.connect "a" "db",
         Event.exec 1 "SELECT 1;", Event.disconnect 1, Event.fileClose] :=
  ⟨fun env st rest l hl hk => replay_header_warn env l rest st hl hk, by decide⟩

/-- Concrete instance of `malformed_header_skip`: the line `FOO a b` is
warned about and skipped. -/
theorem malformed_header_skip_witness :
    replay hOk ["FOO a b"] .header initRState =
      ⟨Event.warnBadHeader "FOO a b" ::
         (replay hOk [] .header (parseHeaderInto initRState "FOO a b")).evs,
       (replay hOk [] .header (parseHeaderInto initRState "FOO a b")).fin,
       (replay hOk [] .header (parseHeaderInto initRState "FOO a b")).esc⟩ :=
  malformed_header_skip.1 hOk initRState [] "FOO a b" (by decide) (by decide)

/-- Counterexample to claim C4 as stated: the first token of the line
`USERX u d` is `USERX`, which is not the literal keyword `USER`, yet the
line is not skipped with a warning — the prefix comparison
`user_keyword.compare(0, 4, "USER") == 0` accepts it, and a session is
opened for user `u` on database `d`. -/
theorem malformed_header_skip_cex :
    tokenize "USERX u d" = ["USERX", "u", "d"] ∧
    (run_warmup_queries hOk "warmup_queries.sql" ["USERX u d"]).trace
      = [Event.connect "u" "d", Event.disconnect 1, Event.fileClose] :=
  ⟨by decide, by decide⟩

/-- Claim C9 (code bug): the elevation toggle `super_user_rights_` is set
just before `connect` (line 182) and cleared just after it (line 184) — on
the successful path.  But when `connect` throws, stack unwinding skips
line 184 and the outermost catch swallows the exception, so the handler is
left permanently privilege-elevated after the replay routine returns:
third conjunct.  On the success path it is indeed revoked (first
conjunct). -/
theorem elevation_left_set_on_connect_failure :
    (run_warmup_queries hOk "warmup_queries.sql"
        ["USER a db", "SELECT 1;", "\x7d"]).super_user_rights = false ∧
    (run_warmup_queries hThrow "warmup_queries.sql" ["USER alice db1"]).trace
      = [Event.fileClose, Event.warnTop] ∧
    (run_warmup_queries hThrow "warmup_queries.sql"
        ["USER alice db1"]).super_user_rights = true :=
  ⟨by decide, by decide, by decide⟩

theorem take3_shape {α : Type} {xs ys : List α} (h3 : 3 ≤ xs.length)
    (heq : xs.take 3 = ys.take 3) :
    ∃ a b c xs2 ys2, xs = a :: b :: c :: xs2 ∧ ys = a :: b :: c :: ys2 := by
  cases xs with
  | nil => simp at h3
  | cons a xs1 =>
    cases xs1 with
    | nil => simp at h3
    | cons b xs2 =>
      cases xs2 with
      | nil => simp at h3
      | cons c xs3 =>
        cases ys with
        | nil => simp at heq
        | cons a2 ys1 =>
          cases ys1 with
          | nil => simp at heq
          | cons b2 ys2 =>
            cases ys2 with
            | nil => simp at heq
            | cons c2 ys3 =>
              simp at heq
              obtain ⟨rfl, rfl, rfl⟩ := heq
              exact ⟨a, b, c, xs3, ys3, rfl, rfl⟩

/-- Claim C10: header parsing extracts only the first three
whitespace-separated tokens; two header-position lines with the same first
three tokens (each having at least three) give the same sessions, the same
statement executions, the same final state and the same escape status —
any text after the third token has no effect (only the literal warning
line differs, which is filtered out here). -/
theorem header_extra_tokens_irrelevant (env : HandlerModel) (rest : List String)
    (st : RState) (l l2 : String)
    (h3 : 3 ≤ (tokenize l).length)
    (heq : (tokenize l).take 3 = (tokenize l2).take 3) :
    ((replay env (l :: rest) .header st).evs.filter Event.isSessionEvent
       = (replay env (l2 :: rest) .header st).evs.filter Event.isSessionEvent) ∧
    (replay env (l :: rest) .header st).fin = (replay env (l2 :: rest) .header st).fin ∧
    (replay env (l :: rest) .header st).esc = (replay env (l2 :: rest) .header st).esc := by
  obtain ⟨a, b, c, t1, t2, hx1, hx2⟩ := take3_shape h3 heq
  have hl : l ≠ "" := tokenize_nonempty hx1
  have hl2 : l2 ≠ "" := tokenize_nonempty hx2
  have hsame : parseHeaderInto st l = parseHeaderInto st l2 := by
    rw [parseHeaderInto_three st hx1, parseHeaderInto_three st hx2]
  by_cases hk : hasUSERKeyword (parseHeaderInto st l).user_keyword
  · cases hcr : env.connect (parseHeaderInto st l).user_name
        (parseHeaderInto st l).db_name with
    | none =>
      rw [replay_header_connect_fail env l rest st hl hk hcr,
        replay_header_connect_fail env l2 rest st hl2
          (by rw [← hsame]; exact hk) (by rw [← hsame]; exact hcr), hsame]
      exact ⟨rfl, rfl, rfl⟩
    | some sid =>
      have hcs : connectState st l sid = connectState st l2 sid := by
        simp [connectState, hsame]
      rw [replay_header_connect_ok env l rest st sid hl hk hcr,
        replay_header_connect_ok env l2 rest st sid hl2
          (by rw [← hsame]; exact hk) (by rw [← hsame]; exact hcr), hsame, hcs]
      exact ⟨rfl, rfl, rfl⟩
  · rw [replay_header_warn env l rest st hl (by simpa using hk),
      replay_header_warn env l2 rest st hl2
        (by rw [← hsame]; simpa using hk), hsame]
    refine ⟨?_, rfl, rfl⟩
    simp [Event.isSessionEvent]

/-- Concrete instance of `header_extra_tokens_irrelevant`: trailing junk
after the third token of a `USER` header changes nothing. -/
theorem header_extra_tokens_irrelevant_witness :
    ((replay hOk ["USER a db junk extra"] .header initRState).evs.filter
        Event.isSessionEvent
      = (replay hOk ["USER a db"] .header initRState).evs.filter
        Event.isSessionEvent) ∧
    (replay hOk ["USER a db junk extra"] .header initRState).fin
      = (replay hOk ["USER a db"] .header initRState).fin ∧
    (replay hOk ["USER a db junk extra"] .header initRState).esc
      = (replay hOk ["USER a db"] .header initRState).esc :=
  header_extra_tokens_irrelevant hOk [] initRState "USER a db junk extra"
    "USER a db" (by decide) (by decide)

theorem mem_only_db_leaves {x : LeafHostInfo} {l : List LeafHostInfo} :
    x ∈ only_db_leaves l ↔ x ∈ l ∧ x.role = NodeRole.DbLeaf := by
  simp [only_db_leaves, List.mem_filter]

theorem mem_only_string_leaves {x : LeafHostInfo} {l : List LeafHostInfo} :
    x ∈ only_string_leaves l ↔ x ∈ l ∧ x.role = NodeRole.String := by
  simp [only_string_leaves, List.mem_filter]

/-- Claim C7: for any cluster-config input with a cluster flag present
(and the fatal both-flags check not firing, so the resolution returns),
`db_leaves` and `string_leaves` are disjoint; a descriptor with role
DbLeaf is in `db_leaves` iff the `cluster` flag is set; a descriptor with
role String is in `string_leaves` whichever of the two flags is set; and
descriptors with any other role are in neither. -/
theorem cluster_partition (wc ws : Bool) (nodes dbl strl : List LeafHostInfo)
    (cl : Bool) (hflag : (wc || ws) = true)
    (hres : resolve_cluster wc ws nodes = some (dbl, strl, cl)) :
    (∀ x ∈ dbl, x ∉ strl) ∧
    (∀ x ∈ nodes, x.role = NodeRole.DbLeaf → (x ∈ dbl ↔ wc = true)) ∧
    (∀ x ∈ nodes, x.role = NodeRole.String → x ∈ strl) ∧
    (∀ x, x.role ≠ NodeRole.DbLeaf → x.role ≠ NodeRole.String →
      x ∉ dbl ∧ x ∉ strl) := by
  cases wc <;> cases ws
  · simp at hflag
  · -- wc = false, ws = true
    simp [resolve_cluster] at hres
    obtain ⟨rfl, rfl, rfl⟩ := hres
    refine ⟨?_, ?_, ?_, ?_⟩
    · intro x hx
      simp at hx
    · intro x _ _
      simp
    · intro x hx hrole
      rw [mem_only_string_leaves]
      exact ⟨hx, hrole⟩
    · intro x _ hrole2
      refine ⟨by simp, ?_⟩
      rw [mem_only_string_leaves]
      rintro ⟨_, h⟩
      exact hrole2 h
  · -- wc = true, ws = false
    simp [resolve_cluster] at hres
    obtain ⟨rfl, rfl, rfl⟩ := hres
    refine ⟨?_, ?_, ?_, ?_⟩
    · intro x hx
      rw [mem_only_db_leaves] at hx
      rw [mem_only_string_leaves]
      rintro ⟨_, h⟩
      rw [hx.2] at h
      cases h
    · intro x hx hrole
      simp only [mem_only_db_leaves]
      simp [hx, hrole]
    · intro x hx hrole
      rw [mem_only_string_leaves]
      exact ⟨hx, hrole⟩
    · intro x hrole1 hrole2
      constructor
      · rw [mem_only_db_leaves]
        rintro ⟨_, h⟩
        exact hrole1 h
      · rw [mem_only_string_leaves]
        rintro ⟨_, h⟩
        exact hrole2 h
  · simp [resolve_cluster] at hres

/-- Concrete instance of `cluster_partition` on a three-role node list with
the `cluster` flag. -/
theorem cluster_partition_witness :
    (∀ x ∈ only_db_leaves
        [⟨"h1", 1, NodeRole.DbLeaf⟩, ⟨"h2", 2, NodeRole.String⟩,
         ⟨"h3", 3, NodeRole.Aggregator⟩],
      x ∉ only_string_leaves
        [⟨"h1", 1, NodeRole.DbLeaf⟩, ⟨"h2", 2, NodeRole.String⟩,
         ⟨"h3", 3, NodeRole.Aggregator⟩]) ∧
    (∀ x ∈ ([⟨"h1", 1, NodeRole.DbLeaf⟩, ⟨"h2", 2, NodeRole.String⟩,
         ⟨"h3", 3, NodeRole.Aggregator⟩] : List LeafHostInfo),
      x.role = NodeRole.DbLeaf →
      (x ∈ only_db_leaves
        [⟨"h1", 1, NodeRole.DbLeaf⟩, ⟨"h2", 2, NodeRole.String⟩,
         ⟨"h3", 3, NodeRole.Aggregator⟩] ↔ true = true)) ∧
    (∀ x ∈ ([⟨"h1", 1, NodeRole.DbLeaf⟩, ⟨"h2", 2, NodeRole.String⟩,
         ⟨"h3", 3, NodeRole.Aggregator⟩] : List LeafHostInfo),
      x.role = NodeRole.String →
      x ∈ only_string_leaves
        [⟨"h1", 1, NodeRole.DbLeaf⟩, ⟨"h2", 2, NodeRole.String⟩,
         ⟨"h3", 3, NodeRole.Aggregator⟩]) ∧
    (∀ x : LeafHostInfo, x.role ≠ NodeRole.DbLeaf → x.role ≠ NodeRole.String →
      x ∉ only_db_leaves
        [⟨"h1", 1, NodeRole.DbLeaf⟩, ⟨"h2", 2, NodeRole.String⟩,
         ⟨"h3", 3, NodeRole.Aggregator⟩] ∧
      x ∉ only_string_leaves
        [⟨"h1", 1, NodeRole.DbLeaf⟩, ⟨"h2", 2, NodeRole.String⟩,
         ⟨"h3", 3, NodeRole.Aggregator⟩]) :=
  cluster_partition true false
    [⟨"h1", 1, NodeRole.DbLeaf⟩, ⟨"h2", 2, NodeRole.String⟩,
     ⟨"h3", 3, NodeRole.Aggregator⟩]
    (only_db_leaves
      [⟨"h1", 1, NodeRole.DbLeaf⟩, ⟨"h2", 2, NodeRole.String⟩,
       ⟨"h3", 3, NodeRole.Aggregator⟩])
    (only_string_leaves
      [⟨"h1", 1, NodeRole.DbLeaf⟩, ⟨"h2", 2, NodeRole.String⟩,
       ⟨"h3", 3, NodeRole.Aggregator⟩])
    true rfl (by decide)

/-- Claim C6: with all gates before the lock phase passing and the pid
file opening, `main` opens (creating if absent) the fixed-name lock file
`mapd_server_pid.lck` inside the data directory; when `lockf(F_TLOCK)`
fails because another process holds the lock, it prints a message naming
the data directory and exits 1 with no further startup action (no cluster
event beyond the already-performed resolution, no endpoint spawned, no
warm-up event); when the lock is acquired it truncates the file and writes
the current pid as decimal text (`Nat.repr`) before continuing. -/
theorem instance_lock (w : World)
    (h1 : w.optionsOk = true) (h2 : (w.wantCluster && w.wantStringServers) = false)
    (h3 : w.helpReq = false) (h4 : w.helpAdvReq = false) (h5 : w.versionReq = false)
    (h6 : w.queryFile = "" ∨ w.queryFileExists = true)
    (h7 : w.convertDir = "" ∨ w.convertDirExists = true)
    (h8 : w.basePathExists = true) (h9 : w.systemDbExists = true)
    (h10 : w.dataPathExists = true) (h11 : w.dbFileExists = true)
    (h12 : w.pidOpenOk = true) :
    (MainEv.openLockFile (w.basePath ++ "/" ++ lockFileName) ∈ (mainRun w).1) ∧
    (w.lockFree = false →
      mainRun w = (clusterPreOf w
          ++ [MainEv.openLockFile (w.basePath ++ "/" ++ lockFileName),
              MainEv.lockContention w.basePath], some 1) ∧
      MainEv.spawnBuf ∉ (mainRun w).1 ∧ (∀ e, MainEv.wEv e ∉ (mainRun w).1)) ∧
    (w.lockFree = true → w.truncOk = true → w.writeOk = true →
      (mainRun w).1 = clusterPreOf w
        ++ MainEv.openLockFile (w.basePath ++ "/" ++ lockFileName)
          :: MainEv.lockAcquired :: MainEv.truncateLock
          :: MainEv.writePid (Nat.repr w.pid) :: MainEv.startLogging
          :: (mainAfterLogging w (dbLeavesOf w) (stringLeavesOf w)).1) := by
  have hmain : mainRun w
      = (clusterPreOf w ++ (mainAfterChecks w (dbLeavesOf w) (stringLeavesOf w)).1,
         (mainAfterChecks w (dbLeavesOf w) (stringLeavesOf w)).2) := by
    rcases h6 with h6 | h6 <;> rcases h7 with h7 | h7 <;>
      simp [mainRun, resolve_cluster_of_not_both _ _ _ h2, h1, h3, h4, h5, h6, h7,
        h8, h9, h10, h11, clusterPreOf, dbLeavesOf, stringLeavesOf]
  refine ⟨?_, ?_, ?_⟩
  · rw [hmain]
    simp only [List.mem_append]
    right
    by_cases hlf : w.lockFree <;> by_cases ht : w.truncOk <;>
      by_cases hw : w.writeOk <;>
      simp [mainAfterChecks, h12, hlf, ht, hw]
  · intro hlock
    have htr : mainAfterChecks w (dbLeavesOf w) (stringLeavesOf w)
        = ([MainEv.openLockFile (w.basePath ++ "/" ++ lockFileName),
            MainEv.lockContention w.basePath], some 1) := by
      simp [mainAfterChecks, h12, hlock]
    rw [hmain, htr]
    refine ⟨rfl, ?_, ?_⟩
    · by_cases hf : (w.wantCluster || w.wantStringServers) <;>
        simp [clusterPreOf, hf]
    · intro e
      by_cases hf : (w.wantCluster || w.wantStringServers) <;>
        simp [clusterPreOf, hf]
  · intro hlf ht hw
    rw [hmain]
    simp [mainAfterChecks, h12, hlf, ht, hw]

/-- Concrete instance of `instance_lock` at the lock-contention world: the
second server exits 1 after the contention message and performs no further
startup action. -/
theorem instance_lock_witness :
    mainRun { wOk with lockFree := false }
      = (clusterPreOf { wOk with lockFree := false }
          ++ [MainEv.openLockFile
                ({ wOk with lockFree := false }.basePath ++ "/" ++ lockFileName),
              MainEv.lockContention { wOk with lockFree := false }.basePath],
         some 1) ∧
    MainEv.spawnBuf ∉ (mainRun { wOk with lockFree := false }).1 ∧
    (∀ e, MainEv.wEv e ∉ (mainRun { wOk with lockFree := false }).1) :=
  (instance_lock { wOk with lockFree := false } rfl rfl rfl rfl rfl
    (Or.inl rfl) (Or.inl rfl) rfl rfl rfl rfl rfl).2.1 rfl

/-- Claim C5: an unrecoverable transport-level error thrown by one
endpoint's serve loop is caught and logged inside that loop's
`start_server` call, which returns normally (first conjunct) — so only
that endpoint's loop exits and the process does not crash; `main` still
performs the other endpoint's loop exit and joins both threads before
exiting 0 (second conjunct: the enclosing trace ends with the binary
endpoint's logged exit, its join, the HTTP endpoint's exit, its join). -/
theorem endpoint_failure_isolated (w : World) (e : String) (h : reachesServe w) :
    start_server (Except.error e) = ["Exception: " ++ e] ∧
    mainRun { w with bufOutcome := Except.error e }
      = (preServeEvents w ++ [MainEv.spawnBuf, MainEv.spawnHttp] ++ warmEvents w
          ++ [MainEv.loopExitBuf ["Exception: " ++ e], MainEv.joinBuf,
              MainEv.loopExitHttp (start_server w.httpOutcome), MainEv.joinHttp],
         some 0) := by
  refine ⟨rfl, ?_⟩
  have h2 : reachesServe { w with bufOutcome := Except.error e } := h
  rw [mainRun_serve { w with bufOutcome := Except.error e } h2]
  rfl

/-- Concrete instance of `endpoint_failure_isolated` at `wOk` with a
broken-pipe error on the binary endpoint. -/
theorem endpoint_failure_isolated_witness :
    start_server (Except.error "broken pipe") = ["Exception: " ++ "broken pipe"] ∧
    mainRun { wOk with bufOutcome := Except.error "broken pipe" }
      = (preServeEvents wOk ++ [MainEv.spawnBuf, MainEv.spawnHttp] ++ warmEvents wOk
          ++ [MainEv.loopExitBuf ["Exception: " ++ "broken pipe"], MainEv.joinBuf,
              MainEv.loopExitHttp (start_server wOk.httpOutcome), MainEv.joinHttp],
         some 0) :=
  endpoint_failure_isolated wOk "broken pipe"
    ⟨rfl, rfl, rfl, rfl, rfl, Or.inl rfl, Or.inl rfl, rfl, rfl, rfl, rfl, rfl,
     rfl, rfl, rfl, rfl⟩

/-- Claim C8 (amended): on every start reaching the serve phase the order
is — cluster-topology resolution first (it happens during option
processing, before the lock, and may abort startup), then the
filesystem-precondition and instance-lock phase (open, non-blocking
exclusive lock, truncate, pid write — which may abort startup), then
logging, signal-handler registration and handler construction, then both
RPC endpoints are launched, then the warm-up replay runs, and the process
finally blocks joining both endpoint loops and exits 0. -/
theorem startup_order (w : World) (h : reachesServe w) :
    mainRun w = (clusterPreOf w
      ++ [MainEv.openLockFile (w.basePath ++ "/" ++ lockFileName),
          MainEv.lockAcquired, MainEv.truncateLock,
          MainEv.writePid (Nat.repr w.pid), MainEv.startLogging,
          MainEv.registerSignalHandler,
          MainEv.constructHandler (dbLeavesOf w) (stringLeavesOf w),
          MainEv.spawnBuf, MainEv.spawnHttp]
      ++ warmEvents w ++ serveTail w, some 0) := by
  rw [mainRun_serve w h]
  simp [preServeEvents]

/-- Concrete instance of `startup_order` at the successful world `wOk`. -/
theorem startup_order_witness :
    mainRun wOk = (clusterPreOf wOk
      ++ [MainEv.openLockFile (wOk.basePath ++ "/" ++ lockFileName),
          MainEv.lockAcquired, MainEv.truncateLock,
          MainEv.writePid (Nat.repr wOk.pid), MainEv.startLogging,
          MainEv.registerSignalHandler,
          MainEv.constructHandler (dbLeavesOf wOk) (stringLeavesOf wOk),
          MainEv.spawnBuf, MainEv.spawnHttp]
      ++ warmEvents wOk ++ serveTail wOk, some 0) :=
  startup_order wOk
    ⟨rfl, rfl, rfl, rfl, rfl, Or.inl rfl, Or.inl rfl, rfl, rfl, rfl, rfl, rfl,
     rfl, rfl, rfl, rfl⟩

/-- Counterexample to claim C8 as stated: on the fully successful start
`wOk`, cluster-topology resolution appears in the trace strictly before
the lock-file events — lock acquisition does not "run first".  (The
cluster branch runs at lines 365-376, inside option processing; the lock
code runs at lines 447-469.) -/
theorem startup_order_cex :
    (mainRun wOk).1 =
      [MainEv.resolveCluster [] [],
       MainEv.openLockFile "data/mapd_server_pid.lck", MainEv.lockAcquired,
       MainEv.truncateLock, MainEv.writePid "42", MainEv.startLogging,
       MainEv.registerSignalHandler, MainEv.constructHandler [] [],
       MainEv.spawnBuf, MainEv.spawnHttp, MainEv.loopExitBuf [], MainEv.joinBuf,
       MainEv.loopExitHttp [], MainEv.joinHttp] ∧
    (mainRun wOk).1.indexOf (MainEv.resolveCluster [] [])
      < (mainRun wOk).1.indexOf
          (MainEv.openLockFile "data/mapd_server_pid.lck") :=
  ⟨by decide, by decide⟩
